import Mathlib

/-!
Verification development for the multimodal-chat-rag ingestion/retrieval slice.

Shallow embedding of the Python sources under src/ into Lean:
external capabilities (the YouTube caption loader, yt_dlp extraction,
the Whisper speech-to-text engine, the vector store, the Python regex
engine applied to the module's URL pattern, and the LangChain text
splitter and multi-query retriever) are passed in as oracle parameters;
the repository's own control flow is translated function by function.
Python exceptions are modelled with `Except`, Python `None` with
`Option`, Python dicts with insertion-ordered association lists.
-/

namespace MMChat

/-- Decidable equality for `Except`, needed to evaluate concrete
outcomes in witnesses. -/
instance {ε α : Type} [DecidableEq ε] [DecidableEq α] : DecidableEq (Except ε α)
  | .error e, .error f =>
      decidable_of_iff (e = f) (by constructor <;> (intro h; first | exact congrArg _ h | (cases h; rfl)))
  | .error _, .ok _ => isFalse (by intro h; cases h)
  | .ok _, .error _ => isFalse (by intro h; cases h)
  | .ok a, .ok b =>
      decidable_of_iff (a = b) (by constructor <;> (intro h; first | exact congrArg _ h | (cases h; rfl)))

/-- A Python exception value: a `KeyError` carrying the missing key, or
any other exception carrying a message. -/
inductive PyErr where
  | keyError (key : String)
  | other (msg : String)
deriving DecidableEq, Repr

/-- A Python scalar value stored in a metadata dict. -/
inductive PyVal where
  | str (s : String)
  | int (n : Int)
deriving DecidableEq, Repr

/-- A Python dict (string keys), modelled as an insertion-ordered
association list without duplicate keys being enforced structurally;
operations below follow Python dict semantics. -/
abbrev PyDict := List (String × PyVal)

/-- Python `d.get(k)` / `k in d`: the value at the first matching key. -/
def dictGet (d : PyDict) (k : String) : Option PyVal :=
  (d.find? (fun p => p.1 = k)).map (fun p => p.2)

/-- Python `d[k] = v`: update in place if the key exists (keeping its
position), else append at the end (insertion order). -/
def dictSet (d : PyDict) (k : String) (v : PyVal) : PyDict :=
  if d.any (fun p => p.1 = k) then
    d.map (fun p => if p.1 = k then (k, v) else p)
  else
    d ++ [(k, v)]

/-- Python `d.copy()`: a shallow copy.  In the value semantics of this
embedding a copy is the same value; the point of translating the call
explicitly is that every subsequent mutation in the source acts on the
copy, never on the argument. -/
def dictCopy (d : PyDict) : PyDict := d

/- ### src/tools/fetch_tool.py -/

/-- Python `f"{n:02}"` for a non-negative integer: zero-pad to width 2. -/
def pad2 (n : Nat) : String :=
  if n < 10 then "0" ++ toString n else toString n

/-- One line of the reconstructed transcript in
`fetch_transcript_tool`: the timestamp from `chunk_size_seconds` times
the chunk index, then `": "`, then the chunk's page content, then a
newline (the `transcript_text +=` body of the loop). -/
def transcriptLine (chunk_size_seconds : Nat) (i : Nat) (content : String) : String :=
  let start_time := i * chunk_size_seconds
  let end_time := (i + 1) * chunk_size_seconds
  pad2 (start_time / 60) ++ ":" ++ pad2 (start_time % 60) ++ "--" ++
    pad2 (end_time / 60) ++ ":" ++ pad2 (end_time % 60) ++ ": " ++ content ++ "\n"

/-- Embedding of `fetch_transcript_tool(video_url, chunk_size_seconds)`.  The
YouTube loader (`YoutubeLoader...load()`) is the external capability
`load`: it either raises or returns the list of loaded documents'
`page_content` strings.  The whole body is wrapped in
`try ... except Exception: return None`, so a raising loader yields
`none`; otherwise the timestamp-prefixed transcript is assembled chunk
by chunk. -/
def fetch_transcript_tool (load : Except PyErr (List String))
    (chunk_size_seconds : Nat) : Option String :=
  match load with
  | .error _ => none
  | .ok transcript_docs =>
      some (String.join (transcript_docs.enum.map
        (fun p => transcriptLine chunk_size_seconds p.1 p.2)))

/- ### src/tools/generate_transcript_tool.py -/

/-- One Whisper segment: `{start, end, text}` with float times
modelled as rationals. -/
structure Segment where
  start : Rat
  end' : Rat
  text : String
deriving DecidableEq, Repr

/-- The parts of the yt_dlp `info_dict` that `generate_transcript`
reads, each optional because the code reads them with `.get` and a
default. -/
structure YdlInfo where
  title : Option String
  id : Option String
  upload_date : Option String
deriving DecidableEq, Repr

/-- The dict returned by `generate_transcript`. -/
structure GenResult where
  video_id : String
  title : String
  upload_date : String
  transcript : List Segment
  transcript_text : String
deriving DecidableEq, Repr

/-- The filesystem state `generate_transcript` touches: whether
`temp_audio.mp3` exists. -/
structure FileState where
  temp_audio_exists : Bool
deriving DecidableEq, Repr

/-- Embedding of `generate_transcript(video_url)`.  External capabilities:
`extractO` is `ydl.extract_info(video_url, download=True)` (which, on
success, has downloaded the audio to `temp_audio.mp3`), and
`transcribeO` is `whisper_model.transcribe(...)` delivering the
segments.  The function has no internal exception handling: an error
from either capability propagates, and the cleanup
(`if os.path.exists(audio_file): os.remove(audio_file)`) runs only on
the fall-through path after a successful transcription. -/
def generate_transcript (extractO : Except PyErr YdlInfo)
    (transcribeO : Except PyErr (List Segment))
    (fs : FileState) : Except PyErr GenResult × FileState :=
  match extractO with
  | .error e => (.error e, fs)
  | .ok info_dict =>
      let video_title := info_dict.title.getD "Unknown Title"
      let video_id := info_dict.id.getD "unknown"
      let video_upload_date := info_dict.upload_date.getD "unknown"
      let fs1 : FileState := ⟨true⟩
      match transcribeO with
      | .error e => (.error e, fs1)
      | .ok segments =>
          let transcript := segments
          let transcript_text := String.join (segments.map (fun s => s.text ++ "\n"))
          let fs2 : FileState := ⟨false⟩
          (.ok ⟨video_id, video_title, video_upload_date, transcript, transcript_text⟩, fs2)

/- ### src/tools/store_in_chromadb_tool.py -/

/-- Everything observable about one call to `store_in_chromadb`:
the Python return value (`.ok none` is the function falling off the
end and returning `None`; `.error` is an uncaught exception), the
sequence of `(text, metadata)` entries handed to
`vector_db.add_texts` in order, and the caller's metadata dict as it
stands after the call. -/
structure StoreOutcome where
  ret : Except PyErr (Option Nat)
  writes : List (String × PyDict)
  metadata_after : PyDict
deriving DecidableEq, Repr

/-- The loop body of `store_in_chromadb` over the remaining chunks,
carrying the running chunk index and the writes so far.  For each
chunk: copy the metadata, set `chunk_index` on the copy, call
`add_texts`, then evaluate the log line — whose f-string reads
`metadata['source']` and raises `KeyError` if the key is absent. -/
def storeChunks (metadata : PyDict) : List String → Nat → List (String × PyDict) →
    Except PyErr (Option Nat) × List (String × PyDict)
  | [], _, writes => (.ok none, writes)
  | chunk :: rest, i, writes =>
      let chunk_metadata := dictCopy metadata
      let chunk_metadata := dictSet chunk_metadata "chunk_index" (.int i)
      let writes := writes ++ [(chunk, chunk_metadata)]
      match dictGet metadata "source" with
      | none => (.error (.keyError "source"), writes)
      | some _ => storeChunks metadata rest (i + 1) writes

/-- Embedding of `store_in_chromadb(content, metadata, vector_db)`.  The LangChain
`RecursiveCharacterTextSplitter.split_text` is the external capability
`split_text`; `vector_db.add_texts` is recorded in the outcome's
`writes`.  The function is annotated `-> None` and has no `return`
statement. -/
def store_in_chromadb (split_text : String → List String)
    (content : String) (metadata : PyDict) : StoreOutcome :=
  let split_content := split_text content
  let result := storeChunks metadata split_content 0 []
  ⟨result.1, result.2, metadata⟩

/- ### src/tools/retrieve_or_generate_tool.py -/

/-- Python truthiness of the `transcript_text` variable, which is
either `None` or a string: truthy iff it is a non-empty string. -/
def truthy : Option String → Bool
  | none => false
  | some s => s ≠ ""

/-- The acquisition step inlined at the top of the per-URL loop of
`retrieve_or_generate_transcripts`: call `fetch_transcript_tool`; if
it returned `None`, call `generate_transcript` (whose errors are not
handled here) and read `generated_data.get("transcript_text")` — a key
the generation path always populates. -/
def acquireTranscript (fetchRes : Option String)
    (genRes : Except PyErr GenResult) : Except PyErr (Option String) :=
  match fetchRes with
  | some transcript_text => .ok (some transcript_text)
  | none =>
      match genRes with
      | .error e => .error e
      | .ok generated_data => .ok (some generated_data.transcript_text)

/-- The metadata dict the orchestrator builds for one URL before
storing. -/
def transcriptMetadata (url : String) : PyDict :=
  [("source", .str "YouTube"), ("video_url", .str url), ("document_type", .str "transcript")]

/-- One iteration of the orchestrator's loop for `url`, reduced to
whether `url` gets appended to `stored_urls`.  The whole body sits in
`try ... except Exception: continue`, so any error from acquisition or
from `store_in_chromadb_tool.invoke` is absorbed into `false`.
`fetchO`, `genO` and `storeO` are the external outcomes of
`fetch_transcript_tool`, `generate_transcript` and the store tool for
this URL (`storeO` takes the content and the metadata passed in). -/
def processOneUrl (fetchO : String → Option String)
    (genO : String → Except PyErr GenResult)
    (storeO : String → PyDict → Except PyErr Unit)
    (url : String) : Bool :=
  let body : Except PyErr Bool :=
    match acquireTranscript (fetchO url) (genO url) with
    | .error e => .error e
    | .ok transcript_text =>
        if truthy transcript_text then
          match storeO (transcript_text.getD "") (transcriptMetadata url) with
          | .error e => .error e
          | .ok _ => .ok true
        else .ok false
  match body with
  | .ok stored => stored
  | .error _ => false

/-- The orchestrator's loop accumulating `stored_urls`. -/
def ingestLoop (fetchO : String → Option String)
    (genO : String → Except PyErr GenResult)
    (storeO : String → PyDict → Except PyErr Unit) :
    List String → List String → List String
  | [], stored_urls => stored_urls
  | url :: rest, stored_urls =>
      let stored_urls :=
        if processOneUrl fetchO genO storeO url then stored_urls ++ [url] else stored_urls
      ingestLoop fetchO genO storeO rest stored_urls

/-- Embedding of `retrieve_or_generate_transcripts(video_urls, vector_db, store_in_chromadb_tool)`:
run the loop over every URL and return the summary string counting
`stored_urls`. -/
def retrieve_or_generate_transcripts (fetchO : String → Option String)
    (genO : String → Except PyErr GenResult)
    (storeO : String → PyDict → Except PyErr Unit)
    (video_urls : List String) : String :=
  let stored_urls := ingestLoop fetchO genO storeO video_urls []
  "Transcripts created and stored for " ++ toString stored_urls.length ++ " videos."

/- ### src/tools/video_urls_tool.py -/

/-- The whitespace characters Python's `\S` excludes (ASCII). -/
def pyIsSpace (c : Char) : Bool :=
  c = ' ' || c = '\t' || c = '\n' || c = '\x0d' || c = '\x0b' || c = '\x0c'

/-- If the character list starts with `http://` or `https://` (the
fixed part of the pattern `https?://`), return the matched scheme
characters and the remainder. -/
def matchScheme : List Char → Option (List Char × List Char)
  | 'h' :: 't' :: 't' :: 'p' :: 's' :: ':' :: '/' :: '/' :: rest =>
      some (['h', 't', 't', 'p', 's', ':', '/', '/'], rest)
  | 'h' :: 't' :: 't' :: 'p' :: ':' :: '/' :: '/' :: rest =>
      some (['h', 't', 't', 'p', ':', '/', '/'], rest)
  | _ => none

/-- A match of `https?://\S+` starting exactly here: the scheme
followed by at least one non-whitespace character, taken greedily. -/
def matchUrlAt (l : List Char) : Option (List Char) :=
  match matchScheme l with
  | none => none
  | some (scheme, rest) =>
      let body := rest.takeWhile (fun c => !pyIsSpace c)
      if body.isEmpty then none else some (scheme ++ body)

/-- Embedding of `re.search(r'https?://\S+', ...)`: the leftmost match, scanning
start positions left to right. -/
def searchUrl : List Char → Option (List Char)
  | [] => none
  | l@(_ :: rest) =>
      match matchUrlAt l with
      | some m => some m
      | none => searchUrl rest

/-- Embedding of `clean_url(url)`: the first `https?://\S+` substring if one
exists, else the input unchanged. -/
def clean_url (url : String) : String :=
  match searchUrl url.toList with
  | some m => String.mk m
  | none => url

/-- Embedding of `is_valid_url(url)`: `re.match(url_regex, url) is not None` for the
module's anchored URL pattern.  The Python regex engine applied to
that fixed pattern is treated as an external capability `matchO`; the
function's own contribution is only the conversion of the match object
to a Boolean. -/
def is_valid_url (matchO : String → Bool) (url : String) : Bool :=
  matchO url

/-- A yt_dlp download failure, the only exception type
`retrieve_video_urls` expects from the extraction capability
(`except yt_dlp.utils.DownloadError`), matching the external
interface's contract that extraction raises a download-error. -/
structure DownloadError where
  msg : String
deriving DecidableEq, Repr

/-- One entry of a flat playlist/channel extraction; the code checks
`'url' in entry`, so the field is optional. -/
structure YtEntry where
  url : Option String
deriving DecidableEq, Repr

/-- The parts of the yt_dlp `info_dict` that `retrieve_video_urls`
reads: `entries` when present (playlist/channel) and `webpage_url`. -/
structure YtInfoDict where
  entries : Option (List YtEntry)
  webpage_url : Option String
deriving DecidableEq, Repr

/-- The `video_urls` list comprehension: one URL per entry that has a
`url` key if `'entries' in info_dict`, else the singleton
`[info_dict.get('webpage_url')]` (which may hold Python `None`). -/
def expandInfo (info_dict : YtInfoDict) : List (Option String) :=
  match info_dict.entries with
  | some entries => (entries.filterMap (fun e => e.url)).map some
  | none => [info_dict.webpage_url]

/-- Embedding of `retrieve_video_urls(input_url)` over an already-listified input,
returning `(retrieved_urls, failed_urls)` — the Python function
returns `retrieved_urls` and prints `failed_urls`.  Per URL: clean,
validate (append the cleaned URL to `failed_urls` when invalid,
`continue`), else extract; a `DownloadError` appends to `failed_urls`
and the loop continues; a successful extraction extends
`retrieved_urls` with the expansion. -/
def retrieve_video_urls (matchO : String → Bool)
    (extractO : String → Except DownloadError YtInfoDict) :
    List String → List (Option String) × List String
  | [] => ([], [])
  | input_url :: rest =>
      let url := clean_url input_url
      let (retrieved_urls, failed_urls) := retrieve_video_urls matchO extractO rest
      if is_valid_url matchO url then
        match extractO url with
        | .ok info_dict => (expandInfo info_dict ++ retrieved_urls, failed_urls)
        | .error _ => (retrieved_urls, url :: failed_urls)
      else
        (retrieved_urls, url :: failed_urls)

/- ### src/retrievers.py -/

/-- A document returned by the multi-query retriever: its text and its
numeric metadata (the only key read is `similarity_score`); scores are
modelled as rationals. -/
structure RetrievedDoc where
  page_content : String
  metadata : List (String × Rat)
deriving DecidableEq, Repr

/-- Python `doc.metadata.get(k, default)` over the numeric metadata. -/
def metaGetD (m : List (String × Rat)) (k : String) (default : Rat) : Rat :=
  match m.find? (fun p => p.1 = k) with
  | some p => p.2
  | none => default

/-- Embedding of `multiquery_wrapper(query, llm, vector_db, similarity_threshold)`.
The multi-rewrite retrieval (`MultiQueryRetriever...invoke`) is the
external capability delivering `documents`; the function then keeps
the documents whose `similarity_score` (default `1.0` when unscored)
is `>=` the threshold and joins their contents with a blank line. -/
def multiquery_wrapper (documents : List RetrievedDoc)
    (similarity_threshold : Rat) : String :=
  let filtered_documents := documents.filter
    (fun doc => similarity_threshold ≤ metaGetD doc.metadata "similarity_score" 1)
  String.intercalate "\n\n" (filtered_documents.map (fun doc => doc.page_content))

/- ### src/app.py -/

/-- Modelled from the spec: the `memory` module (imported by `app.py`
as `from memory import conversation_history`) is not under `src/`.
Per the spec, conversation memory is process-wide mutable state,
explicitly clearable, cleared wholesale (never partially); it is
modelled as a list of messages whose `clear()` yields `[]`. -/
abbrev Memory := List String

/-- The outcome of `agent_executor.invoke({"input": question})`: on
success the response dict and the memory as the agent left it, on a
raise the exception and the memory at that point. -/
abbrev InvokeOutcome := Except (PyErr × Memory) (PyDict × Memory)

/-- Rendering of a non-string `response["output"]` by the UI layer
(Gradio applies `str`). -/
def pyValStr : PyVal → String
  | .str s => s
  | .int n => toString n

/-- Embedding of `process_question(question)`.  `response` starts as `None`; the
`try` block sets it from the agent invocation; `except KeyError`
prints and clears `conversation_history`; the final statement returns
`response["output"] if response else "An error occurred."` — the
`response["output"]` lookup sits outside the `try`, so a missing
`output` key raises to the UI.  The result pairs the returned string
with the conversation memory after the call. -/
def process_question (outcome : InvokeOutcome) : Except (PyErr × Memory) (String × Memory) :=
  match outcome with
  | .error (.keyError _, _) => .ok ("An error occurred.", ([] : Memory))
  | .error (e, mem) => .error (e, mem)
  | .ok (response, mem) =>
      if response.isEmpty then .ok ("An error occurred.", mem)
      else
        match dictGet response "output" with
        | some v => .ok (pyValStr v, mem)
        | none => .error (.keyError "output", mem)

/- ### Dict lemmas -/

/-- Looking up key `k` in a dict whose matching entries were all
replaced by `(k, v)` finds `(k, v)` exactly when some entry matched. -/
theorem find?_map_replace (k : String) (v : PyVal) (d : PyDict) :
    (d.map (fun p => if p.1 = k then (k, v) else p)).find? (fun p => p.1 = k) =
      if d.any (fun p => p.1 = k) then some (k, v) else none := by
  induction d with
  | nil => simp
  | cons a d ih =>
      by_cases ha : a.1 = k
      · simp [ha]
      · simp [ha, ih]
        split <;> simp [ha, *]

/-- Setting a key and reading it back yields the value just set. -/
theorem dictGet_dictSet (d : PyDict) (k : String) (v : PyVal) :
    dictGet (dictSet d k v) k = some v := by
  unfold dictGet dictSet
  by_cases h : d.any (fun p => p.1 = k)
  · simp only [h, if_pos, find?_map_replace, Option.map_some]
    simp [h]
  · simp only [h, if_neg, Bool.false_eq_true, not_false_iff, List.find?_append]
    have hnone : d.find? (fun p => p.1 = k) = none := by
      rw [List.find?_eq_none]
      intro x hx hk
      exact h (List.any_eq_true.mpr ⟨x, hx, hk⟩)
    simp [hnone]

/- ### C2, C3, C8, C9 theorems -/

/-- C3 counterexample: the claim that `generate_transcript` deletes
`temp_audio.mp3` on every execution path fails concretely — when the
download succeeds and the speech-to-text step raises, the temporary
file is still present afterwards. -/
theorem generate_transcript_leaves_temp_file :
    (generate_transcript (.ok ⟨some "T", some "I", some "20240101"⟩)
        (.error (.other "whisper failed")) ⟨false⟩).2.temp_audio_exists = true := by
  rfl

/-- C3 (amended): once the audio download has succeeded, the temporary
audio file is absent after the call exactly when the transcription
step succeeds; when transcription raises, the exception propagates and
the file is left behind (there is no scoped cleanup). -/
theorem generate_transcript_cleanup_iff (info : YdlInfo)
    (r : Except PyErr (List Segment)) (fs : FileState) :
    ((generate_transcript (.ok info) r fs).2.temp_audio_exists = false ↔
      ∃ segments, r = .ok segments) ∧
    (∀ e, generate_transcript (.error e) r fs = (.error e, fs)) := by
  refine ⟨?_, fun e => rfl⟩
  cases r with
  | error e => simp [generate_transcript]
  | ok segments => simp [generate_transcript]

/-- C2 counterexample: the claim that no network/provider error raised
inside either acquisition path propagates to the caller of the
acquisition step fails concretely — with the fetch path returning
`None` and the generation path raising, the acquisition step raises to
its caller rather than returning. -/
theorem acquire_error_propagates_counterexample :
    ¬ ∃ t, acquireTranscript none (.error (.other "network down")) = .ok t := by
  intro h
  obtain ⟨t, ht⟩ := h
  cases ht

/-- C2 (amended): errors inside the fetch path are caught there
(`fetch_transcript_tool` returns `None` instead of raising, triggering
the fallback), and the acquisition step never yields Python `None` —
but a generation-path error is not handled inside acquisition: the
step raises exactly when the fetch path returned `None` and
`generate_transcript` raised, leaving that error to the caller. -/
theorem acquire_failure_semantics (e : PyErr) (c : Nat)
    (fetchRes : Option String) (genRes : Except PyErr GenResult) (f : PyErr) :
    fetch_transcript_tool (.error e) c = none ∧
    acquireTranscript fetchRes genRes ≠ .ok none ∧
    (acquireTranscript fetchRes genRes = .error f ↔
      fetchRes = none ∧ genRes = .error f) := by
  refine ⟨rfl, ?_, ?_⟩
  · cases fetchRes with
    | some t => simp [acquireTranscript]
    | none =>
        cases genRes with
        | error g => simp [acquireTranscript]
        | ok g => simp [acquireTranscript]
  · cases fetchRes with
    | some t => simp [acquireTranscript]
    | none =>
        cases genRes with
        | error g => simp [acquireTranscript]
        | ok g => simp [acquireTranscript]

/-- C8: for a successfully fetched caption chunk list and a positive
chunk size, the transcript is the concatenation, one line per chunk,
of the timestamp label computed from `chunkSeconds * chunk_index`
(start `i*c`, end `(i+1)*c`, each rendered `minutes:seconds` zero-
padded), a `": "` separator, the chunk's text, and a newline. -/
theorem fetch_transcript_timestamp_format (docs : List String) (c : Nat) (_hc : 0 < c) :
    fetch_transcript_tool (.ok docs) c =
      some (String.join (docs.enum.map (fun p =>
        pad2 ((p.1 * c) / 60) ++ ":" ++ pad2 ((p.1 * c) % 60) ++ "--" ++
          pad2 (((p.1 + 1) * c) / 60) ++ ":" ++ pad2 (((p.1 + 1) * c) % 60) ++
          ": " ++ p.2 ++ "\n"))) := by
  simp [fetch_transcript_tool, transcriptLine]

/-- C8 witness: the timestamp format theorem applied to two concrete
chunks at the default 30-second chunk size. -/
theorem fetch_transcript_timestamp_format_witness :
    0 < 30 ∧
    fetch_transcript_tool (.ok ["hello", "world"]) 30 =
      some (String.join (["hello", "world"].enum.map (fun p =>
        pad2 ((p.1 * 30) / 60) ++ ":" ++ pad2 ((p.1 * 30) % 60) ++ "--" ++
          pad2 (((p.1 + 1) * 30) / 60) ++ ":" ++ pad2 (((p.1 + 1) * 30) % 60) ++
          ": " ++ p.2 ++ "\n"))) :=
  ⟨by decide, fetch_transcript_timestamp_format ["hello", "world"] 30 (by decide)⟩

/-- C9: when the agent invocation raises a `KeyError` (a memory-lookup
failure), `process_question` does not raise to the UI layer: it
returns the generic string "An error occurred." and the conversation
memory after the call is empty, whatever it held before. -/
theorem process_question_memory_failure_recovery (k : String) (mem : Memory) :
    process_question (.error (.keyError k, mem)) = .ok ("An error occurred.", []) := by
  rfl

/-- C6: `multiquery_wrapper` joins exactly the documents whose
similarity score — read as `1.0` when the `similarity_score` metadata
is absent, so unscored documents pass by default — is at least the
threshold; a document survives the filter iff it is among the
retrieved documents and clears the threshold; and with threshold `1.1`
(above any possible score, i.e. when every document scores at most
`1`) the result is the empty string whatever the store returned. -/
theorem multiquery_wrapper_threshold_filter (documents : List RetrievedDoc)
    (similarity_threshold : Rat) :
    multiquery_wrapper documents similarity_threshold =
      String.intercalate "\n\n" ((documents.filter (fun doc =>
        similarity_threshold ≤ metaGetD doc.metadata "similarity_score" 1)).map
          (fun doc => doc.page_content)) ∧
    (∀ doc, doc ∈ documents.filter (fun doc =>
          similarity_threshold ≤ metaGetD doc.metadata "similarity_score" 1) ↔
        doc ∈ documents ∧
          similarity_threshold ≤ metaGetD doc.metadata "similarity_score" 1) ∧
    ((∀ doc ∈ documents, metaGetD doc.metadata "similarity_score" 1 ≤ 1) →
      multiquery_wrapper documents ((11 : Rat) / 10) = "") := by
  refine ⟨rfl, ?_, ?_⟩
  · intro doc
    simp [List.mem_filter]
  · intro hle
    have hnil : documents.filter (fun doc =>
        ((11 : Rat) / 10) ≤ metaGetD doc.metadata "similarity_score" 1) = [] := by
      rw [List.filter_eq_nil_iff]
      intro doc hdoc
      simp only [decide_eq_true_eq, not_le]
      calc metaGetD doc.metadata "similarity_score" 1 ≤ 1 := hle doc hdoc
        _ < (11 : Rat) / 10 := by norm_num
    simp only [multiquery_wrapper, hnil, List.map_nil]
    rfl

/-- C6 witness: the threshold theorem applied to a two-document store
(one scored 4/5, one unscored) at the default threshold 3/4 — and, for
the empty-result conjunct, at threshold 1.1 with both scores at most
1. -/
theorem multiquery_wrapper_threshold_filter_witness :
    (∀ doc ∈ [RetrievedDoc.mk "d1" [("similarity_score", (4 : Rat) / 5)],
        RetrievedDoc.mk "d2" []],
      metaGetD doc.metadata "similarity_score" 1 ≤ 1) ∧
    multiquery_wrapper [RetrievedDoc.mk "d1" [("similarity_score", (4 : Rat) / 5)],
        RetrievedDoc.mk "d2" []] ((11 : Rat) / 10) = "" := by
  have hscores : ∀ doc ∈ [RetrievedDoc.mk "d1" [("similarity_score", (4 : Rat) / 5)],
      RetrievedDoc.mk "d2" []], metaGetD doc.metadata "similarity_score" 1 ≤ 1 := by
    intro doc hdoc
    simp only [List.mem_cons, List.not_mem_nil, or_false] at hdoc
    rcases hdoc with h | h
    · subst h; simp [metaGetD]; norm_num
    · subst h; simp [metaGetD]
  exact ⟨hscores,
    (multiquery_wrapper_threshold_filter
      [RetrievedDoc.mk "d1" [("similarity_score", (4 : Rat) / 5)],
        RetrievedDoc.mk "d2" []] ((3 : Rat) / 4)).2.2 hscores⟩

/-- The orchestrator's loop always terminates with the accumulator
extended by exactly the URLs whose iteration succeeded, in input
order: each reference is processed independently of the others. -/
theorem ingestLoop_eq_filter (fetchO : String → Option String)
    (genO : String → Except PyErr GenResult)
    (storeO : String → PyDict → Except PyErr Unit)
    (urls acc : List String) :
    ingestLoop fetchO genO storeO urls acc =
      acc ++ urls.filter (fun u => processOneUrl fetchO genO storeO u) := by
  induction urls generalizing acc with
  | nil => simp [ingestLoop]
  | cons url rest ih =>
      by_cases h : processOneUrl fetchO genO storeO url
      · simp [ingestLoop, h, ih]
      · simp only [Bool.not_eq_true] at h
        simp [ingestLoop, h, ih]

/-- C1: `retrieve_or_generate_transcripts` always returns normally
with the summary string counting exactly the references whose
transcripts were successfully stored; the stored references are the
filter of the whole input batch by the per-reference outcome, so all
N references are processed whatever happens to any of them; and an
exception raised while acquiring, or while storing, the transcript of
one reference is absorbed into a `false` outcome for that reference
alone. -/
theorem retrieve_or_generate_processes_all_refs (fetchO : String → Option String)
    (genO : String → Except PyErr GenResult)
    (storeO : String → PyDict → Except PyErr Unit)
    (video_urls : List String) :
    retrieve_or_generate_transcripts fetchO genO storeO video_urls =
      "Transcripts created and stored for " ++
        toString (video_urls.countP (fun u => processOneUrl fetchO genO storeO u)) ++
        " videos." ∧
    ingestLoop fetchO genO storeO video_urls [] =
      video_urls.filter (fun u => processOneUrl fetchO genO storeO u) ∧
    (∀ u e, acquireTranscript (fetchO u) (genO u) = .error e →
      processOneUrl fetchO genO storeO u = false) ∧
    (∀ u t e, acquireTranscript (fetchO u) (genO u) = .ok t → truthy t = true →
      storeO (t.getD "") (transcriptMetadata u) = .error e →
      processOneUrl fetchO genO storeO u = false) := by
  refine ⟨?_, ?_, ?_, ?_⟩
  · unfold retrieve_or_generate_transcripts
    rw [ingestLoop_eq_filter, List.nil_append, List.countP_eq_length_filter]
  · rw [ingestLoop_eq_filter, List.nil_append]
  · intro u e h
    simp [processOneUrl, h]
  · intro u t e hacq htruthy hstore
    simp [processOneUrl, hacq, htruthy, hstore]

/-- C1 witness: the orchestrator theorem applied to a two-reference
batch whose first reference fails both acquisition paths with a raised
error and whose second is fetched and stored — the batch still reports
one stored transcript and the failing reference's outcome is `false`. -/
theorem retrieve_or_generate_processes_all_refs_witness :
    retrieve_or_generate_transcripts (fun u => if u = "a" then none else some "txt")
        (fun _ => .error (.other "network down")) (fun _ _ => .ok ()) ["a", "b"] =
      "Transcripts created and stored for 1 videos." ∧
    processOneUrl (fun u => if u = "a" then none else some "txt")
        (fun _ => .error (.other "network down")) (fun _ _ => .ok ()) "a" = false := by
  have h := retrieve_or_generate_processes_all_refs
    (fun u => if u = "a" then none else some "txt")
    (fun _ => .error (.other "network down")) (fun _ _ => .ok ()) ["a", "b"]
  refine ⟨?_, h.2.2.1 "a" (.other "network down") rfl⟩
  rw [h.1]
  rfl

/-- When the metadata carries a `source` key, the store loop writes
every remaining chunk, pairing the `i`-th with a copy of the metadata
holding `chunk_index := i`, and the function returns Python `None`. -/
theorem storeChunks_of_source (metadata : PyDict) (v : PyVal)
    (hsource : dictGet metadata "source" = some v) (chunks : List String)
    (i : Nat) (acc : List (String × PyDict)) :
    storeChunks metadata chunks i acc =
      (.ok none, acc ++ (chunks.enumFrom i).map (fun p =>
        (p.2, dictSet (dictCopy metadata) "chunk_index" (.int p.1)))) := by
  induction chunks generalizing i acc with
  | nil => simp [storeChunks]
  | cons chunk rest ih =>
      simp only [storeChunks, hsource, List.enumFrom_cons, List.map_cons]
      rw [ih]
      simp

/-- When the metadata lacks a `source` key, the store loop writes the
first remaining chunk (with `chunk_index` injected), then raises
`KeyError` from the log line's `metadata['source']` lookup. -/
theorem storeChunks_of_no_source (metadata : PyDict)
    (hsource : dictGet metadata "source" = none) (chunk : String)
    (rest : List String) (i : Nat) (acc : List (String × PyDict)) :
    storeChunks metadata (chunk :: rest) i acc =
      (.error (.keyError "source"),
        acc ++ [(chunk, dictSet (dictCopy metadata) "chunk_index" (.int i))]) := by
  simp [storeChunks, hsource]

/-- C4 counterexample: the claim that `store_in_chromadb` returns the
count of chunks written fails concretely — at a one-chunk content it
writes one chunk but returns Python `None`, not an integer. -/
theorem store_in_chromadb_no_return_counterexample :
    ¬ ((store_in_chromadb (fun s => [s]) "hello"
          [("source", .str "YouTube")]).ret =
        .ok (some (store_in_chromadb (fun s => [s]) "hello"
          [("source", .str "YouTube")]).writes.length)) := by
  decide

/-- C4 (amended): when the metadata carries the `source` key the
precondition demands, `store_in_chromadb` writes one store entry per
chunk the splitter produced — but returns Python `None` (the function
is annotated `-> None` and has no `return`), so the chunk count is not
reported to the caller. -/
theorem store_in_chromadb_writes_all_chunks (split_text : String → List String)
    (content : String) (metadata : PyDict) (v : PyVal)
    (hsource : dictGet metadata "source" = some v) :
    (store_in_chromadb split_text content metadata).ret = .ok none ∧
    (store_in_chromadb split_text content metadata).writes.length =
      (split_text content).length := by
  simp only [store_in_chromadb]
  rw [storeChunks_of_source metadata v hsource]
  simp [List.enumFrom_length]

/-- C4 witness: the amended store theorem applied to a concrete
two-chunk split with `source` present. -/
theorem store_in_chromadb_writes_all_chunks_witness :
    dictGet [("source", PyVal.str "YouTube")] "source" = some (PyVal.str "YouTube") ∧
    (store_in_chromadb (fun s => [s.take 3, s.drop 3]) "hello"
        [("source", .str "YouTube")]).ret = .ok none ∧
    (store_in_chromadb (fun s => [s.take 3, s.drop 3]) "hello"
        [("source", .str "YouTube")]).writes.length =
      ((fun (s : String) => [s.take 3, s.drop 3]) "hello").length :=
  ⟨by decide,
    store_in_chromadb_writes_all_chunks (fun s => [s.take 3, s.drop 3]) "hello"
      [("source", .str "YouTube")] (.str "YouTube") (by decide)⟩

/-- Mapping a function of the index over an enumerated list is mapping
it over the range of indices. -/
theorem enum_map_index {α β : Type} (l : List α) (h : Nat → β) :
    l.enum.map (fun p => h p.1) = (List.range l.length).map h := by
  have : (fun p : Nat × α => h p.1) = h ∘ Prod.fst := rfl
  rw [this, ← List.map_map, List.enum_map_fst]

/-- C7: the store entries written by `store_in_chromadb` are, in chunk
order, exactly the written prefix of the chunk sequence paired with a
copy of the input metadata holding `chunk_index` equal to the entry's
0-based sequence position — so the written `chunk_index` values are
`0, 1, 2, ...`: starting at 0, strictly increasing, unique within the
document. -/
theorem store_in_chromadb_chunk_index_invariant (split_text : String → List String)
    (content : String) (metadata : PyDict) :
    (store_in_chromadb split_text content metadata).writes =
      (((split_text content).take
          (store_in_chromadb split_text content metadata).writes.length).enum.map
        (fun p => (p.2, dictSet (dictCopy metadata) "chunk_index" (.int p.1)))) ∧
    (store_in_chromadb split_text content metadata).writes.map
        (fun e => dictGet e.2 "chunk_index") =
      (List.range (store_in_chromadb split_text content metadata).writes.length).map
        (fun i => some (.int i)) := by
  have hwrites : (store_in_chromadb split_text content metadata).writes =
      ((split_text content).take
          (store_in_chromadb split_text content metadata).writes.length).enum.map
        (fun p => (p.2, dictSet (dictCopy metadata) "chunk_index" (.int p.1))) := by
    cases hsource : dictGet metadata "source" with
    | some v =>
        simp only [store_in_chromadb]
        rw [storeChunks_of_source metadata v hsource]
        simp [List.enum]
    | none =>
        cases hchunks : split_text content with
        | nil => simp [store_in_chromadb, hchunks, storeChunks]
        | cons chunk rest =>
            simp only [store_in_chromadb, hchunks]
            rw [storeChunks_of_no_source metadata hsource]
            simp [List.enum]
  refine ⟨hwrites, ?_⟩
  conv_lhs => rw [hwrites]
  rw [List.map_map]
  have hcomp : ((fun e : String × PyDict => dictGet e.2 "chunk_index") ∘
      (fun p : Nat × String => (p.2, dictSet (dictCopy metadata) "chunk_index" (.int p.1)))) =
      (fun p : Nat × String => some (PyVal.int p.1)) := by
    funext p
    exact dictGet_dictSet (dictCopy metadata) "chunk_index" (.int p.1)
  rw [hcomp]
  have hmap := enum_map_index
    ((split_text content).take (store_in_chromadb split_text content metadata).writes.length)
    (fun i : Nat => some (PyVal.int i))
  rw [hmap]
  have hlen : ((split_text content).take
      (store_in_chromadb split_text content metadata).writes.length).length =
      (store_in_chromadb split_text content metadata).writes.length := by
    conv_rhs => rw [hwrites]
    simp
  rw [hlen]

/-- C10: a call to `store_in_chromadb` leaves the caller's metadata
dict exactly as it was, and every stored entry's metadata is a fresh
copy of the input metadata with only `chunk_index` added to the
copy. -/
theorem store_in_chromadb_preserves_caller_metadata (split_text : String → List String)
    (content : String) (metadata : PyDict) :
    (store_in_chromadb split_text content metadata).metadata_after = metadata ∧
    (∀ e ∈ (store_in_chromadb split_text content metadata).writes,
      ∃ i : Nat, e.2 = dictSet (dictCopy metadata) "chunk_index" (.int i)) := by
  refine ⟨rfl, ?_⟩
  intro e he
  rw [(store_in_chromadb_chunk_index_invariant split_text content metadata).1] at he
  rw [List.mem_map] at he
  obtain ⟨p, _, hp⟩ := he
  exact ⟨p.1, by rw [← hp]⟩

/-- C10 witness: the frame theorem applied to a concrete one-chunk
store — the caller's metadata is unchanged and the single written
entry's metadata is the copy with `chunk_index := 0`. -/
theorem store_in_chromadb_preserves_caller_metadata_witness :
    (store_in_chromadb (fun s => [s]) "hi"
        [("source", .str "YouTube")]).metadata_after = [("source", .str "YouTube")] ∧
    ∃ i : Nat, (("hi", [("source", PyVal.str "YouTube"), ("chunk_index", PyVal.int 0)]) :
        String × PyDict).2 =
      dictSet (dictCopy [("source", .str "YouTube")]) "chunk_index" (.int i) :=
  ⟨(store_in_chromadb_preserves_caller_metadata (fun s => [s]) "hi"
      [("source", .str "YouTube")]).1,
    (store_in_chromadb_preserves_caller_metadata (fun s => [s]) "hi"
      [("source", .str "YouTube")]).2
      ("hi", [("source", .str "YouTube"), ("chunk_index", .int 0)]) (by decide)⟩

/-- C5: `retrieve_video_urls` accounts for every input URL.  The
retrieved list is exactly the concatenation, in input order, of the
expansions (one URL per playlist/channel entry, or the single video's
canonical URL) of the cleaned inputs that are well-formed and whose
extraction succeeds; the failed list is exactly the cleaned inputs
that are malformed or whose extraction raised a download error — an
extraction error for one URL therefore never aborts the rest — and the
failures plus the successful expansions account for all N inputs. -/
theorem retrieve_video_urls_accounts_for_all (matchO : String → Bool)
    (extractO : String → Except DownloadError YtInfoDict)
    (input_urls : List String) :
    (retrieve_video_urls matchO extractO input_urls).1 =
      input_urls.flatMap (fun u =>
        if is_valid_url matchO (clean_url u) then
          match extractO (clean_url u) with
          | .ok info_dict => expandInfo info_dict
          | .error _ => []
        else []) ∧
    (retrieve_video_urls matchO extractO input_urls).2 =
      input_urls.filterMap (fun u =>
        if is_valid_url matchO (clean_url u) then
          match extractO (clean_url u) with
          | .ok _ => none
          | .error _ => some (clean_url u)
        else some (clean_url u)) ∧
    (retrieve_video_urls matchO extractO input_urls).2.length +
        input_urls.countP (fun u =>
          is_valid_url matchO (clean_url u) &&
            match extractO (clean_url u) with
            | .ok _ => true
            | .error _ => false) =
      input_urls.length := by
  induction input_urls with
  | nil => simp [retrieve_video_urls]
  | cons url rest ih =>
      obtain ⟨ih1, ih2, ih3⟩ := ih
      by_cases hvalid : is_valid_url matchO (clean_url url)
      · cases hextract : extractO (clean_url url) with
        | ok info_dict =>
            refine ⟨?_, ?_, ?_⟩
            · simp [retrieve_video_urls, hvalid, hextract, ih1]
            · simp [retrieve_video_urls, hvalid, hextract, ih2]
            · simp only [retrieve_video_urls, hvalid, hextract, if_true, List.length_cons,
                List.countP_cons]
              simp [hvalid, hextract, ← ih3]
              omega
        | error e =>
            refine ⟨?_, ?_, ?_⟩
            · simp [retrieve_video_urls, hvalid, hextract, ih1]
            · simp [retrieve_video_urls, hvalid, hextract, ih2]
            · simp only [retrieve_video_urls, hvalid, hextract, if_true, List.length_cons,
                List.countP_cons]
              simp [hvalid, hextract, ← ih3]
              omega
      · refine ⟨?_, ?_, ?_⟩
        · simp [retrieve_video_urls, hvalid, ih1]
        · simp [retrieve_video_urls, hvalid, ih2]
        · simp only [retrieve_video_urls, hvalid, List.length_cons, List.countP_cons]
          simp [hvalid, ← ih3]
          omega

end MMChat
